import Mathlib

/-!
Verification of the request-lifecycle controller and shutdown orchestrator of
the `golang-serverless` HTTP server (`src/main.go`, plus the earlier variant in
`src/unnamed/part_000`).

The embedding is shallow and executable:

* HTTP headers are association lists with Go's `Header.Get` / `Header.Set`
  semantics (`Get` of an absent key returns the empty string, `Set` replaces).
* A request carries the inbound headers, the method/path/remote-address/agent
  fields the access log reads, and the per-request context value stored under
  `requestIDKey` (`Option String`, `none` when the correlation stage did not
  run).
* A handler is a state transformer on the response state (`respHeaders`,
  `status`, `body`) extended with the list of emitted access-log records, so
  "exactly one log record" is a statement about that list.
* The `healthy` int32 and the orchestrator's two goroutines are modelled by a
  fold over flag operations and by the literal statement sequences of `main`
  and of the shutdown goroutine.
-/

/-- Go `http.Header.Get`: the value associated with key `k`, or `""` when the
key is absent (Go does not distinguish an absent header from an empty one). -/
def headerGet (hs : List (String × String)) (k : String) : String :=
  match hs.find? (fun p => p.1 == k) with
  | some p => p.2
  | none => ""

/-- Go `http.Header.Set`: replaces any existing entries for key `k` with the
single entry `(k, v)`. -/
def headerSet (hs : List (String × String)) (k v : String) : List (String × String) :=
  hs.filter (fun p => p.1 != k) ++ [(k, v)]

/-- An access-log record: the five values `logging`'s deferred
`logger.Println(requestID, r.Method, r.URL.Path, r.RemoteAddr, r.UserAgent())`
emits (src/main.go line 161). -/
structure LogRecord where
  requestID : String
  method : String
  path : String
  remoteAddr : String
  userAgent : String
deriving DecidableEq, Repr

/-- An inbound `*http.Request`: inbound headers, the fields the access log
reads, and the context value stored under `requestIDKey` (`none` models a
context the correlation stage has not populated). -/
structure Request where
  headers : List (String × String)
  method : String
  path : String
  remoteAddr : String
  userAgent : String
  ctxRequestID : Option String
deriving DecidableEq, Repr

/-- The observable server-side state of one request: the response writer's
headers, status and body, plus the access-log records emitted so far. -/
structure HttpState where
  respHeaders : List (String × String)
  status : Option Nat
  body : String
  logs : List LogRecord
deriving DecidableEq, Repr

/-- A Go `http.Handler`, as a state transformer. -/
abbrev Handler := Request → HttpState → HttpState

/-- `tracing` middleware (src/main.go lines 168-180): read the inbound
`X-Request-Id`; if empty, call the generator; store the id in the request
context, set it on the response header, and invoke the wrapped handler with
the updated request. -/
def tracing (nextID : Unit → String) (next : Handler) : Handler :=
  fun r st =>
    let requestID := headerGet r.headers "X-Request-Id"
    let requestID := if requestID = "" then nextID () else requestID
    next { r with ctxRequestID := some requestID }
      { st with respHeaders := headerSet st.respHeaders "X-Request-Id" requestID }

/-- `logging` middleware (src/main.go lines 153-166): run the wrapped handler,
then (deferred) read the context's request id — substituting `"unknown"` when
the type assertion fails — and emit one access-log record. The `sinkOk`
argument records whether the underlying log sink accepted the write;
`log.Logger.Println` discards the write error, so no part of the result
depends on it. -/
def logging (sinkOk : Bool) (next : Handler) : Handler :=
  fun r st =>
    let st2 := next r st
    let requestID :=
      match r.ctxRequestID with
      | some v => v
      | none => "unknown"
    let record : LogRecord :=
      { requestID := requestID, method := r.method, path := r.path,
        remoteAddr := r.remoteAddr, userAgent := r.userAgent }
    { st2 with logs := st2.logs ++ [record] }

/-- `healthHandler` (src/main.go lines 145-151): status 204 with no body when
the `healthy` int32 reads 1, else status 503 with no body. -/
def healthHandler (healthy : Int) : Handler :=
  fun _ st =>
    if healthy == 1 then { st with status := some 204 }
    else { st with status := some 503 }

/-- `helloHandler` (src/main.go lines 134-136): `Fprintln` of a greeting. -/
def helloHandler : Handler :=
  fun _ st => { st with body := st.body ++ "Hello, World!\n" }

/-- The spec's `is_ready()`: the `healthy` int32 reads 1
(src/main.go line 146). -/
def isReady (v : Int) : Bool := v == 1

/-- The two writes ever performed on the `healthy` int32:
`atomic.StoreInt32(&healthy, 1)` (line 67) and `atomic.StoreInt32(&healthy, 0)`
(line 54). -/
inductive FlagOp where
  | setReady
  | setDraining
deriving DecidableEq, Repr

/-- Effect of one store on the flag; each store overwrites the old value. -/
def applyFlagOp (v : Int) (op : FlagOp) : Int :=
  match op with
  | FlagOp.setReady => 1
  | FlagOp.setDraining => 0

/-- The flag value after a sequence of stores, starting from the zero value of
a package-level int32 (src/main.go line 25). -/
def runFlagOps (ops : List FlagOp) : Int :=
  ops.foldl applyFlagOp 0

/-- The store sequences one server lifetime can produce on `healthy`: `main`
performs exactly one store of 1 (line 67) and the shutdown goroutine exactly
one store of 0 (line 54), the latter only after a termination signal.
`signal.Notify` (line 49) starts signal delivery before the store of 1, and
the two goroutines are otherwise unsynchronised, so the draining store may
land on either side of the startup store: no signal gives `[setReady]`, a
signal received after startup gives `[setReady, setDraining]`, and a signal
delivered in the window between line 49 and line 67 gives
`[setDraining, setReady]` — the goroutine stores 0, then main unconditionally
stores 1. -/
def programFlagTraces : List (List FlagOp) :=
  [[FlagOp.setReady],
   [FlagOp.setReady, FlagOp.setDraining],
   [FlagOp.setDraining, FlagOp.setReady]]

/-- The statements of `main`'s own goroutine in program order
(src/main.go lines 47-73): register the signal handler, log the readiness
message, store 1 into `healthy`, call `ListenAndServe` (which binds the socket
and then accepts connections), and finally block on the `done` channel. -/
inductive MainStep where
  | registerSignalHandler
  | logReadyMessage
  | setReadyFlag
  | bindAndServe
  | awaitDoneChannel
deriving DecidableEq, Repr

def mainSteps : List MainStep :=
  [MainStep.registerSignalHandler, MainStep.logReadyMessage, MainStep.setReadyFlag,
   MainStep.bindAndServe, MainStep.awaitDoneChannel]

/-- The statements of the shutdown goroutine in program order
(src/main.go lines 51-64): wait for the signal, log, store 0 into `healthy`,
create the 30-second deadline context, disable keep-alives, call
`server.Shutdown` (the bounded drain wait), and close the `done` channel. -/
inductive ShutdownStep where
  | awaitSignal
  | logShutdownMessage
  | setDrainingFlag
  | makeDrainDeadline
  | disableKeepAlives
  | drainWait
  | closeDoneChannel
deriving DecidableEq, Repr

def shutdownSteps : List ShutdownStep :=
  [ShutdownStep.awaitSignal, ShutdownStep.logShutdownMessage, ShutdownStep.setDrainingFlag,
   ShutdownStep.makeDrainDeadline, ShutdownStep.disableKeepAlives, ShutdownStep.drainWait,
   ShutdownStep.closeDoneChannel]

/-- Log levels distinguished by the error-handling design. -/
inductive LogLevel where
  | info
  | warning
  | fatal
deriving DecidableEq, Repr

/-- What the orchestrator does after the drain: at which level it logs, and
whether the process exits non-zero on the spot. -/
structure ShutdownReport where
  level : LogLevel
  exitsNonZero : Bool
deriving DecidableEq, Repr

/-- Contract of `net/http`'s `Server.Shutdown(ctx)` with a deadline context:
it returns `nil` when every in-flight request completes within the deadline
and the context's deadline-exceeded error otherwise (it does not itself
force-close the remaining connections). -/
def shutdownCallResult (drainedWithinDeadline : Bool) : Option String :=
  if drainedWithinDeadline then none else some "context deadline exceeded"

/-- The branch on `server.Shutdown`'s result (src/main.go lines 60-63): a
non-nil error goes to `logger.Fatalf`, which logs at fatal level and exits the
process with a non-zero code; a nil error reaches `close(done)` and the
orchestrator finishes normally, logging only info-level messages. -/
def handleShutdownResult (err : Option String) : ShutdownReport :=
  match err with
  | some _ => { level := LogLevel.fatal, exitsNonZero := true }
  | none => { level := LogLevel.info, exitsNonZero := false }

/-- The id generator `nextRequestID` (src/main.go lines 34-36):
`fmt.Sprintf("%d", time.Now().UnixNano())`, i.e. the decimal numeral — most
significant digit first — of the clock reading passed in (Unix-epoch
nanoseconds, non-negative for any realistic clock). -/
def nextRequestID (nowUnixNano : Nat) : String :=
  if nowUnixNano = 0 then "0"
  else ((Nat.digits 10 nowUnixNano).reverse.map Nat.digitChar).asString

/-- Numeric value of a decimal digit character. -/
def charVal (c : Char) : Nat := c.toNat - 48

/-- Parse a most-significant-first decimal numeral back to a natural number
(left inverse of `nextRequestID`, used to prove the generator injective). -/
def parseDecimal (s : String) : Nat :=
  Nat.ofDigits 10 ((s.data.map charVal).reverse)

/-- The initial per-request server state: no response headers, no status, no
body, no emitted access-log records. -/
def st0 : HttpState :=
  { respHeaders := [], status := none, body := "", logs := [] }

/-- A concrete request carrying a non-empty inbound X-Request-Id header. -/
def reqWithID : Request :=
  { headers := [("X-Request-Id", "abc123")], method := "GET", path := "/hello",
    remoteAddr := "127.0.0.1:4000", userAgent := "curl", ctxRequestID := none }

/-- A concrete request with no inbound X-Request-Id header and an unpopulated
context. -/
def reqNoHeader : Request :=
  { headers := [], method := "GET", path := "/hello", remoteAddr := "127.0.0.1:4001",
    userAgent := "curl", ctxRequestID := none }

/-- A concrete header-less request from one client. -/
def reqConcA : Request :=
  { headers := [], method := "GET", path := "/hello", remoteAddr := "10.0.0.1:1111",
    userAgent := "agent-a", ctxRequestID := none }

/-- A concrete header-less request from a second client, distinct from
`reqConcA`. -/
def reqConcB : Request :=
  { headers := [], method := "GET", path := "/hello", remoteAddr := "10.0.0.2:2222",
    userAgent := "agent-b", ctxRequestID := none }

namespace Part000

/-- `tracing` middleware of src/unnamed/part_000 (lines 36-48), embedded
separately; the Go source is textually the same function as src/main.go's. -/
def tracing (nextID : Unit → String) (next : Handler) : Handler :=
  fun r st =>
    let requestID := headerGet r.headers "X-Request-Id"
    let requestID := if requestID = "" then nextID () else requestID
    next { r with ctxRequestID := some requestID }
      { st with respHeaders := headerSet st.respHeaders "X-Request-Id" requestID }

/-- `logging` middleware of src/unnamed/part_000 (lines 54-67), embedded
separately; the Go source is textually the same function as src/main.go's. -/
def logging (sinkOk : Bool) (next : Handler) : Handler :=
  fun r st =>
    let st2 := next r st
    let requestID :=
      match r.ctxRequestID with
      | some v => v
      | none => "unknown"
    let record : LogRecord :=
      { requestID := requestID, method := r.method, path := r.path,
        remoteAddr := r.remoteAddr, userAgent := r.userAgent }
    { st2 with logs := st2.logs ++ [record] }

end Part000

/-- Helper: reading key `k` from a list whose entries all avoid `k`, followed
by the single entry `(k, v)`, gives `v`. -/
theorem headerGet_append_single (k v : String) (l : List (String × String))
    (h : ∀ p ∈ l, (p.1 == k) = false) :
    headerGet (l ++ [(k, v)]) k = v := by
  induction l with
  | nil => simp [headerGet]
  | cons a t ih =>
    have ha : (a.1 == k) = false := h a (List.mem_cons_self a t)
    simp only [headerGet, List.cons_append, List.find?, ha]
    exact ih (fun p hp => h p (List.mem_cons_of_mem a hp))

/-- Helper: setting a header then reading the same key gives the value set. -/
theorem headerGet_headerSet (hs : List (String × String)) (k v : String) :
    headerGet (headerSet hs k v) k = v := by
  refine headerGet_append_single k v _ ?_
  intro p hp
  have hmem := (List.mem_filter.mp hp).2
  simp only [bne_iff_ne, ne_eq] at hmem
  simp [hmem]

/-- Helper: a run of flag stores containing no `setReady` leaves the flag 0. -/
theorem runFlagOps_no_setReady (post : List FlagOp) (h : FlagOp.setReady ∉ post) :
    List.foldl applyFlagOp 0 post = 0 := by
  induction post with
  | nil => rfl
  | cons op t ih =>
    have hop : op = FlagOp.setDraining := by
      cases op
      · exact absurd (List.mem_cons_self _ _) h
      · rfl
    subst hop
    exact ih (fun hm => h (List.mem_cons_of_mem _ hm))

/-- Helper: `charVal` inverts `Nat.digitChar` on decimal digits. -/
theorem charVal_digitChar (d : Nat) (hd : d < 10) : charVal (Nat.digitChar d) = d := by
  interval_cases d <;> rfl

/-- Helper: `parseDecimal` is a left inverse of `nextRequestID`. -/
theorem parseDecimal_nextRequestID (n : Nat) : parseDecimal (nextRequestID n) = n := by
  by_cases h0 : n = 0
  · subst h0
    simp [parseDecimal, nextRequestID, charVal, Nat.ofDigits]
  · simp only [nextRequestID, if_neg h0, parseDecimal]
    have hdata : (((Nat.digits 10 n).reverse.map Nat.digitChar).asString).data
        = (Nat.digits 10 n).reverse.map Nat.digitChar := rfl
    rw [hdata, List.map_map]
    have hmap : (Nat.digits 10 n).reverse.map (charVal ∘ Nat.digitChar)
        = (Nat.digits 10 n).reverse.map id := by
      apply List.map_congr_left
      intro d hd
      exact charVal_digitChar d (Nat.digits_lt_base (by norm_num) (List.mem_reverse.mp hd))
    rw [hmap, List.map_id, List.reverse_reverse, Nat.ofDigits_digits]

/-- Helper: the generator is injective on clock readings. -/
theorem nextRequestID_injective : Function.Injective nextRequestID :=
  Function.LeftInverse.injective parseDecimal_nextRequestID

/-- Helper: a generated id is never the empty string. -/
theorem nextRequestID_ne_empty (n : Nat) : nextRequestID n ≠ "" := by
  by_cases h0 : n = 0
  · subst h0
    decide
  · simp only [nextRequestID, if_neg h0]
    intro hc
    have hl : (Nat.digits 10 n).reverse.map Nat.digitChar = [] := congrArg String.data hc
    simp only [List.map_eq_nil_iff, List.reverse_eq_nil_iff] at hl
    exact (Nat.digits_ne_nil_iff_ne_zero.mpr h0) hl

/-- Helper: every character of a generated id is a decimal digit. -/
theorem nextRequestID_all_digits (n : Nat) :
    ∀ c ∈ (nextRequestID n).data, c.isDigit = true := by
  by_cases h0 : n = 0
  · subst h0
    decide
  · simp only [nextRequestID, if_neg h0]
    intro c hc
    have hc2 : c ∈ (Nat.digits 10 n).reverse.map Nat.digitChar := hc
    obtain ⟨d, hd, rfl⟩ := List.mem_map.mp hc2
    have hd10 : d < 10 := Nat.digits_lt_base (by norm_num) (List.mem_reverse.mp hd)
    interval_cases d <;> rfl

/-- C1: for every request whose inbound X-Request-Id header is present and
non-empty, the correlation stage uses that value verbatim as the correlation
id — it is stored unchanged in the request context handed to the wrapped
handler and set unchanged on the outbound response header — and reading the
outbound X-Request-Id header back yields exactly the inbound value. -/
theorem correlation_passthrough (gen : Unit → String) (next : Handler) (r : Request)
    (st : HttpState) (hin : headerGet r.headers "X-Request-Id" ≠ "") :
    tracing gen next r st
      = next { r with ctxRequestID := some (headerGet r.headers "X-Request-Id") }
          { st with respHeaders :=
              headerSet st.respHeaders "X-Request-Id" (headerGet r.headers "X-Request-Id") }
    ∧ headerGet (headerSet st.respHeaders "X-Request-Id" (headerGet r.headers "X-Request-Id"))
        "X-Request-Id" = headerGet r.headers "X-Request-Id" := by
  constructor
  · simp [tracing, hin]
  · exact headerGet_headerSet st.respHeaders "X-Request-Id" (headerGet r.headers "X-Request-Id")

/-- Witness for `correlation_passthrough` at a concrete request whose inbound
header is "abc123". -/
theorem correlation_passthrough_witness :
    tracing (fun _ => "gen") (fun _ st => st) reqWithID st0
      = (fun _ st => st)
          { reqWithID with ctxRequestID := some (headerGet reqWithID.headers "X-Request-Id") }
          { st0 with respHeaders :=
              headerSet st0.respHeaders "X-Request-Id" (headerGet reqWithID.headers "X-Request-Id") }
    ∧ headerGet (headerSet st0.respHeaders "X-Request-Id" (headerGet reqWithID.headers "X-Request-Id"))
        "X-Request-Id" = headerGet reqWithID.headers "X-Request-Id" :=
  correlation_passthrough (fun _ => "gen") (fun _ st => st) reqWithID st0 (by decide)

/-- C2 counterexample: two distinct requests, each with an absent inbound
X-Request-Id header, whose concurrent generator calls read the same UnixNano
clock value, receive exactly the same generated correlation id in the outbound
header — the timestamp-based generator does not make concurrent ids unique. -/
theorem generated_id_collision :
    reqConcA ≠ reqConcB
    ∧ headerGet reqConcA.headers "X-Request-Id" = ""
    ∧ headerGet reqConcB.headers "X-Request-Id" = ""
    ∧ headerGet (tracing (fun _ => nextRequestID 1700000000000000000) (fun _ st => st)
          reqConcA st0).respHeaders "X-Request-Id"
      = headerGet (tracing (fun _ => nextRequestID 1700000000000000000) (fun _ st => st)
          reqConcB st0).respHeaders "X-Request-Id" :=
  ⟨by decide, rfl, rfl, rfl⟩

/-- C2 amended: for a request whose inbound X-Request-Id header is absent or
empty, the outbound header is the generated id, which is non-empty and
consists solely of decimal digits; two generated ids are distinct whenever the
two generator calls read distinct UnixNano clock values (uniqueness holds only
up to clock resolution — concurrent calls that read the same nanosecond
collide, as the counterexample shows). -/
theorem generated_id_nonempty_valid_distinct (t1 t2 : Nat) (next : Handler)
    (r : Request) (st : HttpState)
    (hin : headerGet r.headers "X-Request-Id" = "") (hne : t1 ≠ t2) :
    tracing (fun _ => nextRequestID t1) next r st
      = next { r with ctxRequestID := some (nextRequestID t1) }
          { st with respHeaders := headerSet st.respHeaders "X-Request-Id" (nextRequestID t1) }
    ∧ nextRequestID t1 ≠ ""
    ∧ (∀ c ∈ (nextRequestID t1).data, c.isDigit = true)
    ∧ nextRequestID t1 ≠ nextRequestID t2 := by
  refine ⟨by simp [tracing, hin], nextRequestID_ne_empty t1, nextRequestID_all_digits t1, ?_⟩
  exact fun hc => hne (nextRequestID_injective hc)

/-- Witness for `generated_id_nonempty_valid_distinct` at clock readings 5 and
7 and a concrete header-less request. -/
theorem generated_id_witness :
    tracing (fun _ => nextRequestID 5) (fun _ st => st) reqNoHeader st0
      = (fun _ st => st) { reqNoHeader with ctxRequestID := some (nextRequestID 5) }
          { st0 with respHeaders := headerSet st0.respHeaders "X-Request-Id" (nextRequestID 5) }
    ∧ nextRequestID 5 ≠ ""
    ∧ (∀ c ∈ (nextRequestID 5).data, c.isDigit = true)
    ∧ nextRequestID 5 ≠ nextRequestID 7 :=
  generated_id_nonempty_valid_distinct 5 7 (fun _ st => st) reqNoHeader st0 rfl (by decide)

/-- C3: through the composed pipeline — correlation stage outermost, then the
access-log stage, then the registry's handler (src/main.go line 40) — a
request starting with no emitted records yields exactly one access-log record,
and the correlation id in that record equals the value of the outbound
X-Request-Id response header, provided the registry's handler neither emits
access-log records nor overwrites the X-Request-Id response header. -/
theorem pipeline_single_log_consistent (gen : Unit → String) (sinkOk : Bool)
    (h : Handler) (r : Request) (st : HttpState)
    (hlogs : ∀ r2 s2, (h r2 s2).logs = s2.logs)
    (hhdr : ∀ r2 s2, headerGet (h r2 s2).respHeaders "X-Request-Id"
      = headerGet s2.respHeaders "X-Request-Id")
    (hst : st.logs = []) :
    (tracing gen (logging sinkOk h) r st).logs
      = [{ requestID := if headerGet r.headers "X-Request-Id" = "" then gen ()
             else headerGet r.headers "X-Request-Id",
           method := r.method, path := r.path, remoteAddr := r.remoteAddr,
           userAgent := r.userAgent }]
    ∧ headerGet (tracing gen (logging sinkOk h) r st).respHeaders "X-Request-Id"
      = (if headerGet r.headers "X-Request-Id" = "" then gen ()
         else headerGet r.headers "X-Request-Id") := by
  by_cases hc : headerGet r.headers "X-Request-Id" = "" <;>
    simp [tracing, logging, hlogs, hhdr, hst, headerGet_headerSet, hc]

/-- Witness for `pipeline_single_log_consistent`: the hello handler behind the
two middleware stages, a concrete header-less request, and a fresh state. -/
theorem pipeline_single_log_witness :
    (tracing (fun _ => "42") (logging true helloHandler) reqNoHeader st0).logs
      = [{ requestID := if headerGet reqNoHeader.headers "X-Request-Id" = ""
             then (fun _ : Unit => "42") ()
             else headerGet reqNoHeader.headers "X-Request-Id",
           method := reqNoHeader.method, path := reqNoHeader.path,
           remoteAddr := reqNoHeader.remoteAddr, userAgent := reqNoHeader.userAgent }]
    ∧ headerGet (tracing (fun _ => "42") (logging true helloHandler)
          reqNoHeader st0).respHeaders "X-Request-Id"
      = (if headerGet reqNoHeader.headers "X-Request-Id" = ""
         then (fun _ : Unit => "42") ()
         else headerGet reqNoHeader.headers "X-Request-Id") :=
  pipeline_single_log_consistent (fun _ => "42") true helloHandler reqNoHeader st0
    (fun _ _ => rfl) (fun _ _ => rfl) rfl

/-- C4 counterexample: a store sequence the program can produce — the
termination signal delivered in the window between signal registration
(src/main.go line 49) and the startup store of 1 (line 67), so the shutdown
goroutine stores 0 first and `main` then stores 1 — leaves the flag reading
not-ready right after draining begins, yet ready again after the subsequent
startup store: the flag returns to ready after draining has begun. -/
theorem flag_returns_to_ready_after_draining :
    [FlagOp.setDraining, FlagOp.setReady] ∈ programFlagTraces
    ∧ isReady (runFlagOps [FlagOp.setDraining]) = false
    ∧ isReady (runFlagOps [FlagOp.setDraining, FlagOp.setReady]) = true := by
  decide

/-- C4 amended: the liveness flag reads not-ready before any store and ready
after a set_ready store; and after a set_draining store it reads not-ready
permanently for every continuation that contains no further set_ready store.
This covers the lifetimes in which the termination signal arrives once
startup's single set_ready store is done (trace `[setReady, setDraining]`);
it deliberately excludes the race in which the signal is delivered before
`main` reaches line 67, where the goroutine's store of 0 is followed by
`main`'s unconditional store of 1 and the flag returns to ready after
draining has begun. -/
theorem liveness_flag_monotone (ops pre post : List FlagOp)
    (hpost : FlagOp.setReady ∉ post) :
    isReady (runFlagOps []) = false
    ∧ isReady (runFlagOps (ops ++ [FlagOp.setReady])) = true
    ∧ isReady (runFlagOps (pre ++ FlagOp.setDraining :: post)) = false := by
  refine ⟨rfl, ?_, ?_⟩
  · simp [runFlagOps, List.foldl_append, applyFlagOp, isReady]
  · have h1 : runFlagOps (pre ++ FlagOp.setDraining :: post)
        = List.foldl applyFlagOp 0 post := by
      simp [runFlagOps, List.foldl_append, applyFlagOp]
    rw [h1, runFlagOps_no_setReady post hpost]
    rfl

/-- Witness for `liveness_flag_monotone` on the trace the program produces:
set_ready at startup, set_draining on the termination signal. -/
theorem liveness_flag_monotone_witness :
    isReady (runFlagOps []) = false
    ∧ isReady (runFlagOps ([FlagOp.setReady] ++ [FlagOp.setReady])) = true
    ∧ isReady (runFlagOps ([FlagOp.setReady] ++ FlagOp.setDraining :: [FlagOp.setDraining])) = false :=
  liveness_flag_monotone [FlagOp.setReady] [FlagOp.setReady] [FlagOp.setDraining] (by decide)

/-- C5 counterexample: in `main`'s statement sequence the store of 1 into
`healthy` (set_ready) strictly precedes the `ListenAndServe` call that binds
the listening socket and begins accepting, so set_ready is called before — not
once — the socket is bound, contrary to the claim. -/
theorem set_ready_before_bind :
    List.indexOf MainStep.setReadyFlag mainSteps < List.indexOf MainStep.bindAndServe mainSteps
    ∧ ¬ List.indexOf MainStep.bindAndServe mainSteps < List.indexOf MainStep.setReadyFlag mainSteps := by
  decide

/-- C5 amended: set_ready() is called immediately before — not after — the
socket is bound: in `main`'s statement order the readiness store follows
signal-handler registration and is the statement directly preceding the
`ListenAndServe` call that binds and begins accepting. -/
theorem set_ready_precedes_bind :
    List.indexOf MainStep.registerSignalHandler mainSteps < List.indexOf MainStep.setReadyFlag mainSteps
    ∧ List.indexOf MainStep.setReadyFlag mainSteps + 1 = List.indexOf MainStep.bindAndServe mainSteps := by
  decide

/-- C6 counterexample: when the drain deadline elapses with requests still
active, `server.Shutdown` returns a non-nil error and the orchestrator hands
it to `logger.Fatalf` — the event is logged at fatal (not warning) level and
the process exits non-zero, so the timeout is treated as a fatal error,
contrary to the claim. -/
theorem drain_timeout_is_fatal :
    (handleShutdownResult (shutdownCallResult false)).level ≠ LogLevel.warning
    ∧ (handleShutdownResult (shutdownCallResult false)).level = LogLevel.fatal
    ∧ (handleShutdownResult (shutdownCallResult false)).exitsNonZero = true := by
  decide

/-- C6 amended: if the drain deadline elapses with requests still active, the
deadline error from `server.Shutdown` is logged at fatal level and the process
exits non-zero — in-flight connections are terminated by the process exit, and
the drain timeout is treated as a fatal shutdown error, not a warning; only a
drain that completes within the deadline proceeds to a normal stop. -/
theorem drain_timeout_fatal_exit (drained : Bool) :
    handleShutdownResult (shutdownCallResult drained)
      = if drained then { level := LogLevel.info, exitsNonZero := false }
        else { level := LogLevel.fatal, exitsNonZero := true } := by
  cases drained <;> rfl

/-- C7: in the shutdown goroutine's statement order, the set_draining store
happens after the signal is received, before keep-alives are disabled on the
listening session, which in turn happens before the bounded drain wait
(`server.Shutdown`) begins. -/
theorem shutdown_ordering :
    List.indexOf ShutdownStep.awaitSignal shutdownSteps
        < List.indexOf ShutdownStep.setDrainingFlag shutdownSteps
    ∧ List.indexOf ShutdownStep.setDrainingFlag shutdownSteps
        < List.indexOf ShutdownStep.disableKeepAlives shutdownSteps
    ∧ List.indexOf ShutdownStep.disableKeepAlives shutdownSteps
        < List.indexOf ShutdownStep.drainWait shutdownSteps := by
  decide

/-- C8: for every request, the health handler sets status 204 when the
liveness flag reads ready and 503 when it does not, and changes nothing else —
in particular it writes no response body and no headers. -/
theorem health_endpoint_status (healthy : Int) (r : Request) (st : HttpState) :
    healthHandler healthy r st
      = { st with status := some (if isReady healthy then 204 else 503) } := by
  cases h : healthy == 1 <;> simp [healthHandler, isReady, h]

/-- C9: for every request whose context carries no correlation id, the
access-log stage logs the sentinel "unknown" rather than failing, the
client-visible response (headers, status, body) is exactly the wrapped
handler's, and the result does not depend on whether the log sink accepted the
write — sink failures are never propagated to the client. -/
theorem logging_sentinel_and_sink_independence (sinkOk sinkOk2 : Bool) (next : Handler)
    (r : Request) (st : HttpState) (hctx : r.ctxRequestID = none) :
    (logging sinkOk next r st).logs
      = (next r st).logs
          ++ [{ requestID := "unknown", method := r.method, path := r.path,
                remoteAddr := r.remoteAddr, userAgent := r.userAgent }]
    ∧ (logging sinkOk next r st).respHeaders = (next r st).respHeaders
    ∧ (logging sinkOk next r st).status = (next r st).status
    ∧ (logging sinkOk next r st).body = (next r st).body
    ∧ logging sinkOk next r st = logging sinkOk2 next r st := by
  simp [logging, hctx]

/-- Witness for `logging_sentinel_and_sink_independence` at a concrete request
whose context is unpopulated, with an identity inner handler. -/
theorem logging_sentinel_witness :
    (logging true (fun _ st => st) reqNoHeader st0).logs
      = ((fun _ st => st) reqNoHeader st0 : HttpState).logs
          ++ [{ requestID := "unknown", method := reqNoHeader.method, path := reqNoHeader.path,
                remoteAddr := reqNoHeader.remoteAddr, userAgent := reqNoHeader.userAgent }]
    ∧ (logging true (fun _ st => st) reqNoHeader st0).respHeaders
        = ((fun _ st => st) reqNoHeader st0 : HttpState).respHeaders
    ∧ (logging true (fun _ st => st) reqNoHeader st0).status
        = ((fun _ st => st) reqNoHeader st0 : HttpState).status
    ∧ (logging true (fun _ st => st) reqNoHeader st0).body
        = ((fun _ st => st) reqNoHeader st0 : HttpState).body
    ∧ logging true (fun _ st => st) reqNoHeader st0
        = logging false (fun _ st => st) reqNoHeader st0 :=
  logging_sentinel_and_sink_independence true false (fun _ st => st) reqNoHeader st0 rfl

/-- C10: the tracing and logging middleware of src/main.go and those of
src/unnamed/part_000 are extensionally equal: for every id generator, wrapped
handler, request, state and sink outcome, the two tracing stages produce the
same downstream request (context included) and response state, and the two
logging stages emit the same log record. -/
theorem middleware_stages_equivalent :
    (∀ (gen : Unit → String) (next : Handler) (r : Request) (st : HttpState),
        tracing gen next r st = Part000.tracing gen next r st)
    ∧ (∀ (sinkOk : Bool) (next : Handler) (r : Request) (st : HttpState),
        logging sinkOk next r st = Part000.logging sinkOk next r st) :=
  ⟨fun _ _ _ _ => rfl, fun _ _ _ _ => rfl⟩
